import Mathlib

set_option maxHeartbeats 1000000
set_option maxRecDepth 100000

/- Verification development for the imii_plintron SOAP gateway.

   The repository is a protocol-translation gateway between a REST/JSON
   surface and two legacy SOAP/XML dialects of a national device registry:

   - src/soap_client.py     (Dialect A, the "action" service, SRTMAxisClient)
   - src/consulta_client.py (Dialect B, the "query" service, ConsultaDBAClient)
   - src/models.py          (pydantic request validators)
   - src/webhook.py         (inbound asynchronous callback handler)

   The shallow embedding below translates the pure decision logic of those
   files into Lean: XML documents already parsed by lxml are modelled as a
   simple element tree, the network round trip is modelled as an explicit
   input describing what the HTTP layer delivered, and every Python
   exception path that the source catches is an explicit branch.  -/

/-- Characters removed by Python str.strip() with no argument (ASCII subset;
    the service strings handled here are ASCII). -/
def isPyWs (c : Char) : Bool :=
  c = ' ' || c = '\t' || c = '\n' || c = '\r' || c = '\x0b' || c = '\x0c'

/-- Python str.strip(): drop leading and trailing whitespace. -/
def pyStrip (s : String) : String :=
  String.mk (((s.data.dropWhile isPyWs).reverse.dropWhile isPyWs).reverse)

/-- html.escape(text, quote=True), per character: the five XML special
    characters are replaced by entities (src/soap_client.py line 94). -/
def escapeChar (c : Char) : String :=
  if c = '&' then "&amp;"
  else if c = '<' then "&lt;"
  else if c = '>' then "&gt;"
  else if c = '"' then "&quot;"
  else if c.toNat = 39 then "&#x27;"
  else String.singleton c

/-- html.escape(text, quote=True) on a whole string. -/
def escapeXml (s : String) : String :=
  String.join (s.data.map escapeChar)

/-- SRTMAxisClient._escape_xml: html.escape(text, quote=True) if text else ""
    (None and the empty string both give ""). -/
def escapeXmlOpt (o : Option String) : String :=
  match o with
  | none => ""
  | some s => if s = "" then "" else escapeXml s

mutual
/-- An XML element as produced by lxml parsing: local tag name, optional
    text content, forest of child elements.  Namespaces are dropped: the
    source always searches with the any-namespace pattern on local names.
    The children are a mutually-defined forest so that every tree search
    below is structurally recursive and fully evaluable. -/
inductive Xml where
  | elem (name : String) (text : Option String) (children : XmlForest)
deriving DecidableEq
/-- A forest of XML elements (the children of an element). -/
inductive XmlForest where
  | nil
  | cons (head : Xml) (tail : XmlForest)
deriving DecidableEq
end

/-- Build a forest from a list of trees. -/
def XmlForest.ofList : List Xml → XmlForest
  | [] => .nil
  | x :: xs => .cons x (XmlForest.ofList xs)

/-- The child elements of a forest, as a list. -/
def XmlForest.toList : XmlForest → List Xml
  | .nil => []
  | .cons x xs => x :: XmlForest.toList xs

def Xml.name : Xml → String
  | .elem n _ _ => n

def Xml.text : Xml → Option String
  | .elem _ t _ => t

def Xml.children : Xml → XmlForest
  | .elem _ _ cs => cs

mutual
/-- First element of the subtree (the root included) whose tag is the
    given name, in document order. -/
def findInTree (tag : String) : Xml → Option Xml
  | .elem n t cs => if n = tag then some (.elem n t cs) else findInForest tag cs
/-- First element of a forest with the given tag, in document order.
    Models lxml .find together with the descendant path. -/
def findInForest (tag : String) : XmlForest → Option Xml
  | .nil => none
  | .cons x xs =>
    match findInTree tag x with
    | some r => some r
    | none => findInForest tag xs
end

mutual
/-- All elements of the subtree (the root included) with the given tag,
    document order. -/
def collectInTree (tag : String) : Xml → List Xml
  | .elem n t cs =>
    (if n = tag then [Xml.elem n t cs] else []) ++ collectInForest tag cs
/-- All elements of a forest with the given tag, document order.  Models
    the xpath descendant query used by the webhook. -/
def collectInForest (tag : String) : XmlForest → List Xml
  | .nil => []
  | .cons x xs => collectInTree tag x ++ collectInForest tag xs
end

/-- element.find for a descendant path: first matching proper descendant
    of the element (the element itself is not a candidate). -/
def Xml.findDesc (x : Xml) (tag : String) : Option Xml :=
  findInForest tag x.children

/-- xpath descendant query: every matching proper descendant. -/
def Xml.collectDesc (x : Xml) (tag : String) : List Xml :=
  collectInForest tag x.children

/-- element.find on direct children only (path without the descendant
    prefix, as in node.findtext of a plain tag). -/
def Xml.childFind (x : Xml) (tag : String) : Option Xml :=
  x.children.toList.find? (fun c => c.name = tag)

/-- node.findtext(tag, default) on direct children: the default if no such
    child exists; the text (empty when the element has no text) otherwise. -/
def Xml.childText (x : Xml) (tag : String) (dflt : String) : String :=
  match x.childFind tag with
  | some c => c.text.getD ""
  | none => dflt

/-- root.findtext with a descendant path and a default. -/
def Xml.descText (x : Xml) (tag : String) (dflt : String) : String :=
  match x.findDesc tag with
  | some c => c.text.getD ""
  | none => dflt

/-- Numeric value of a digit character. -/
def digitVal (c : Char) : Nat := c.toNat - 48

/-- Gregorian leap year, as datetime uses. -/
def isLeap (y : Nat) : Bool :=
  y % 4 = 0 && (y % 100 ≠ 0 || y % 400 = 0)

/-- Days in a month of the proleptic Gregorian calendar. -/
def daysInMonth (y m : Nat) : Nat :=
  if m = 2 then (if isLeap y then 29 else 28)
  else if m = 4 || m = 6 || m = 9 || m = 11 then 30
  else 31

/-- A two-character branch of a CPython TimeRE field alternation: both
    character classes must match; the branch yields the numeric value of
    the two digits and the rest of the input. -/
def tryAlt2 (p1 p2 : Char → Bool) : List Char → Option (Nat × List Char)
  | c1 :: c2 :: r =>
    if p1 c1 && p2 c2 then some (digitVal c1 * 10 + digitVal c2, r) else none
  | _ => none

/-- The blank-padded two-character day branch of TimeRE (a space then a
    digit): the value is that of the digit alone, since int() strips the
    blank. -/
def tryAlt2Blank (p2 : Char → Bool) : List Char → Option (Nat × List Char)
  | c1 :: c2 :: r =>
    if c1 = ' ' && p2 c2 then some (digitVal c2, r) else none
  | _ => none

/-- A one-character branch of a TimeRE field alternation. -/
def tryAlt1 (p : Char → Bool) : List Char → Option (Nat × List Char)
  | c :: r => if p c then some (digitVal c, r) else none
  | _ => none

/-- Ordered alternation with backtracking, exactly as the re engine
    consumes one field of the pattern: if the branch matched and the rest
    of the pattern (the continuation) succeeds, that result stands;
    otherwise the next branch (the fallback) is tried. -/
def withAlt {α : Type} (attempt : Option (Nat × List Char))
    (k : Nat → List Char → Option α) (fallback : Option α) : Option α :=
  match attempt with
  | some (v, r) =>
    match k v r with
    | some out => some out
    | none => fallback
  | none => fallback

/-- Character class [0-1]. -/
def isC01 (c : Char) : Bool := c = '0' || c = '1'

/-- Character class [0-2]. -/
def isC02 (c : Char) : Bool := c = '0' || c = '1' || c = '2'

/-- Character class [1-2]. -/
def isC12 (c : Char) : Bool := c = '1' || c = '2'

/-- Character class [1-9]. -/
def isC19 (c : Char) : Bool := '1' ≤ c && c ≤ '9'

/-- Character class [0-3]. -/
def isC03 (c : Char) : Bool := '0' ≤ c && c ≤ '3'

/-- Character class [0-5]. -/
def isC05 (c : Char) : Bool := '0' ≤ c && c ≤ '5'

/-- TimeRE month directive: the alternation 1[0-2], 0[1-9], [1-9], in
    this order. -/
def matchMonth {α : Type} (cs : List Char) (k : Nat → List Char → Option α) :
    Option α :=
  withAlt (tryAlt2 (fun c => c = '1') isC02 cs) k
    (withAlt (tryAlt2 (fun c => c = '0') isC19 cs) k
      (withAlt (tryAlt1 isC19 cs) k none))

/-- TimeRE day directive: the alternation 3[0-1], [1-2] digit, 0[1-9],
    [1-9], blank [1-9], in this order. -/
def matchDay {α : Type} (cs : List Char) (k : Nat → List Char → Option α) :
    Option α :=
  withAlt (tryAlt2 (fun c => c = '3') isC01 cs) k
    (withAlt (tryAlt2 isC12 Char.isDigit cs) k
      (withAlt (tryAlt2 (fun c => c = '0') isC19 cs) k
        (withAlt (tryAlt1 isC19 cs) k
          (withAlt (tryAlt2Blank isC19 cs) k none))))

/-- TimeRE hour directive: the alternation 2[0-3], [0-1] digit, digit. -/
def matchHour {α : Type} (cs : List Char) (k : Nat → List Char → Option α) :
    Option α :=
  withAlt (tryAlt2 (fun c => c = '2') isC03 cs) k
    (withAlt (tryAlt2 isC01 Char.isDigit cs) k
      (withAlt (tryAlt1 Char.isDigit cs) k none))

/-- TimeRE minute directive: the alternation [0-5] digit, digit. -/
def matchMinute {α : Type} (cs : List Char) (k : Nat → List Char → Option α) :
    Option α :=
  withAlt (tryAlt2 isC05 Char.isDigit cs) k
    (withAlt (tryAlt1 Char.isDigit cs) k none)

/-- TimeRE second directive: the alternation 6[0-1], [0-5] digit, digit
    (60 and 61 survive the match and are rejected only by the datetime
    constructor). -/
def matchSecond {α : Type} (cs : List Char) (k : Nat → List Char → Option α) :
    Option α :=
  withAlt (tryAlt2 (fun c => c = '6') isC01 cs) k
    (withAlt (tryAlt2 isC05 Char.isDigit cs) k
      (withAlt (tryAlt1 Char.isDigit cs) k none))

/-- The preferred match of the concatenated TimeRE pattern for the month,
    day, hour, minute and second directives: the first complete match in
    the re engine search order, together with whatever input it did not
    consume. -/
def matchMDHMS (cs : List Char) :
    Option ((Nat × Nat × Nat × Nat × Nat) × List Char) :=
  matchMonth cs (fun mo r1 =>
    matchDay r1 (fun dy r2 =>
      matchHour r2 (fun h r3 =>
        matchMinute r3 (fun mi r4 =>
          matchSecond r4 (fun se rem => some ((mo, dy, h, mi, se), rem))))))

/-- datetime.strptime(s, the Y m d H M S format with no separators): a
    four-digit year, then the preferred regex match of the five remaining
    directives; any unconsumed input raises (unconverted data remains),
    and the matched values then pass through the datetime constructor,
    which enforces the calendar ranges.  Returns (year, month, day, hour,
    minute, second).  This mirrors the CPython TimeRE alternations
    including their backtracking order, validated against CPython
    exhaustively on short inputs. -/
def parseYmdHMS (s : String) : Option (Nat × Nat × Nat × Nat × Nat × Nat) :=
  match s.data with
  | a :: b :: c :: d :: rest =>
    if a.isDigit && b.isDigit && c.isDigit && d.isDigit then
      let y := ((digitVal a * 10 + digitVal b) * 10 + digitVal c) * 10 + digitVal d
      match matchMDHMS rest with
      | some ((mo, dy, h, mi, se), rem) =>
        if rem = [] then
          if 1 ≤ y && 1 ≤ mo && mo ≤ 12 && 1 ≤ dy && dy ≤ daysInMonth y mo
              && h ≤ 23 && mi ≤ 59 && se ≤ 59 then
            some (y, mo, dy, h, mi, se)
          else none
        else none
      | none => none
    else none
  | _ => none

/-- Zero-pad to two digits. -/
def pad2 (n : Nat) : String :=
  if n < 10 then "0" ++ toString n else toString n

/-- Zero-pad to four digits. -/
def pad4 (n : Nat) : String :=
  if n < 10 then "000" ++ toString n
  else if n < 100 then "00" ++ toString n
  else if n < 1000 then "0" ++ toString n
  else toString n

/-- dt.strftime of the swapped pattern used at src/consulta_client.py line
    115: year, then DAY, then MONTH, then time (the observed contract of
    the service, preserved as-is). -/
def fmtFechaSwap (y mo dy h mi se : Nat) : String :=
  pad4 y ++ "-" ++ pad2 dy ++ "-" ++ pad2 mo ++ " "
    ++ pad2 h ++ ":" ++ pad2 mi ++ ":" ++ pad2 se

/-- ConsultaDBAResponse (src/consulta_client.py lines 14-22) without the
    wall-clock fields (response_time_ms, timestamp), which are real time
    and carry no logic. -/
structure ConsultaDBAResponse where
  success : Bool
  http_status : Nat
  message : Option String
  error_code : Option String
  raw_response : Option (List (List (String × String)))
deriving Repr

/-- Outcome of etree.fromstring on the outer body plus the search for the
    query-operation return element. -/
inductive ConsultaOuter where
  | parseFail
  | retMissing
  | retElem (text : Option String)

/-- What the HTTP layer delivered to ConsultaDBAClient._send_request after
    the post call: either the post itself raised (timeout, connection
    failure), or a status code was received together with the outcome of
    parsing the outer SOAP body and locating the known return element. -/
inductive ConsultaNet where
  | netError
  | got (status : Nat) (outer : ConsultaOuter)

/-- The generic failure produced by the outermost except handler of
    ConsultaDBAClient._send_request (lines 134-137): message replaced by
    the internal-error string and http_status forced back to 500. -/
def consultaGenericFail : ConsultaDBAResponse :=
  { success := false
  , http_status := 500
  , message := some "Error inesperado en el procesamiento."
  , error_code := none
  , raw_response := none }

/-- The distinct no-results failure (lines 129-132): the received status is
    kept, nested parsing is never reached. -/
def consultaNoResults (status : Nat) : ConsultaDBAResponse :=
  { success := false
  , http_status := status
  , message := some "La consulta no retornó resultados."
  , error_code := none
  , raw_response := some [[("error", "Tag de retorno vacío o no encontrado.")]] }

/-- Classification of the parsed inner document, ConsultaDBAClient
    ._send_request lines 86-127: error marker first, then the negative
    record (with strptime of FechaReporte, whose failure escapes to the
    outer handler), then the positive record, then the unknown shape. -/
def consultaClassify (status : Nat) (innerText : String) (doc : Xml) :
    ConsultaDBAResponse :=
  match doc.findDesc "RespuestaConsultaBDAError" with
  | some e =>
    let codigo := e.childText "CodigoError" "N/A"
    let desc := e.childText "DescripcionError" "Error desconocido"
    { success := false
    , http_status := status
    , message := some ("Error de la BDA: " ++ desc)
    , error_code := some codigo
    , raw_response := some [[("CodigoError", codigo), ("DescripcionError", desc)]] }
  | none =>
    match doc.findDesc "RegistroBDANegativa" with
    | some n =>
      let fecha := n.childText "FechaReporte" ""
      let mkNeg : Option (Nat × Nat × Nat × Nat × Nat × Nat) → ConsultaDBAResponse :=
        fun dt =>
          { success := true
          , http_status := status
          , message := some "Consulta negativa procesada exitosamente."
          , error_code := none
          , raw_response := some [[
              ("TipoRespuesta", doc.descText "TipoRespuesta" "N/A"),
              ("RespuestaConsultaBDANegativa", "Registro Encontrado"),
              ("Imei", n.childText "Imei" "N/A"),
              ("Tecnologia", n.childText "Tecnologia" "N/A"),
              ("FechaReporte",
                match dt with
                | some (y, mo, dy, h, mi, se) => fmtFechaSwap y mo dy h mi se
                | none => "N/A")]] }
      if fecha = "" then mkNeg none
      else
        match parseYmdHMS fecha with
        | some dt => mkNeg (some dt)
        | none => consultaGenericFail
    | none =>
      match doc.findDesc "RegistroBDAPositiva" with
      | some _ =>
        { success := true
        , http_status := status
        , message := some "Consulta positiva procesada exitosamente (Estructura de datos pendiente)."
        , error_code := none
        , raw_response := some [[("status", "Registro Positivo Encontrado"), ("data", "...")]] }
      | none =>
        { success := false
        , http_status := status
        , message := some "La estructura de la respuesta no coincide con los patrones conocidos."
        , error_code := none
        , raw_response := some [[("error", "Estructura de respuesta desconocida"),
                                 ("response_body", innerText)]] }

/-- ConsultaDBAClient._send_request (src/consulta_client.py lines 57-143).
    parseInner models etree.fromstring applied to the (double-encoded)
    text of the return element; none is a parse fault, which the except
    handler converts to the generic failure.  raise_for_status raises for
    statuses 400-599, and the except handler then forces the status back
    to 500. -/
def consultaSend (net : ConsultaNet) (parseInner : String → Option Xml) :
    ConsultaDBAResponse :=
  match net with
  | .netError => consultaGenericFail
  | .got s outer =>
    if 400 ≤ s && s < 600 then consultaGenericFail
    else
      match outer with
      | .parseFail => consultaGenericFail
      | .retMissing => consultaNoResults s
      | .retElem txt =>
        match txt with
        | none => consultaNoResults s
        | some t =>
          if t = "" then consultaNoResults s
          else
            match parseInner t with
            | none => consultaGenericFail
            | some doc => consultaClassify s t doc

/-- SRTMResponse (src/soap_client.py lines 40-50) without the wall-clock
    fields. -/
structure SRTMResponse where
  success : Bool
  http_status : Nat
  message : Option String
  error_code : Option String
  raw_response : Option String
deriving Repr

/-- What the HTTP layer delivered to SRTMAxisClient._send_request: either
    the post raised, or a status code arrived together with the outcome of
    parsing the response envelope.  In the parsed case the payload is the
    text handed back by findtext for the receiveMessageReturn element with
    default empty string (an absent element and an element without text
    both give the empty string). -/
inductive SoapNet where
  | netError
  | got (status : Nat) (body : Option String)

/-- SRTMAxisClient._send_request (src/soap_client.py lines 126-186).
    excStr stands for str(e) of whatever exception reaches the generic
    handler; it only feeds the failure message.  raise_for_status raises
    for statuses 400-599; unlike the query client, the except handler here
    leaves http_status untouched, so a received error status is kept.
    On a parsed body the found text is stripped and compared with the
    literal token ack (lines 159-168). -/
def soapSend (msgType excStr : String) (net : SoapNet) : SRTMResponse :=
  match net with
  | .netError =>
    { success := false
    , http_status := 500
    , message := some ("Error inesperado en la comunicación: " ++ excStr)
    , error_code := none
    , raw_response := none }
  | .got s body =>
    if 400 ≤ s && s < 600 then
      { success := false
      , http_status := s
      , message := some ("Error inesperado en la comunicación: " ++ excStr)
      , error_code := none
      , raw_response := none }
    else
      match body with
      | none =>
        { success := false
        , http_status := s
        , message := some ("Error inesperado en la comunicación: " ++ excStr)
        , error_code := none
        , raw_response := none }
      | some raw =>
        let resultText := pyStrip raw
        if resultText = "ack" then
          { success := true
          , http_status := s
          , message := some ("Solicitud " ++ msgType ++ " aceptada.")
          , error_code := none
          , raw_response := some resultText }
        else
          { success := false
          , http_status := s
          , message := some ("Solicitud " ++ msgType ++ " rechazada por el servidor.")
          , error_code := some resultText
          , raw_response := some resultText }

/-- Raw dict handed to RegistroNegativoRequest.check_required_and_robo_fields
    (src/models.py lines 39-80): every field is absent (None) or a string. -/
structure RegistroNegativoData where
  imei : Option String
  tipo_reporte : Option String
  nombre_reporte : Option String
  tipo_identificacion_reporte : Option String
  identificacion_reporte : Option String
  telefono_reporte : Option String
  direccion_reporte : Option String
  ciudad_reporte : Option String
  departamento_reporte : Option String
  correo_electronico : Option String
  observaciones : Option String
  empleo_violencia : Option String
  utilizacion_armas : Option String
  victima_menor_edad : Option String

/-- raise ValueError when the field is None, as the validators do. -/
def requireField (v : Option String) (msg : String) : Except String Unit :=
  match v with
  | none => Except.error msg
  | some _ => Except.ok ()

/-- Sequence two validation steps: the first error wins. -/
def exSeq (a b : Except String Unit) : Except String Unit :=
  match a with
  | Except.error e => Except.error e
  | Except.ok _ => b

/-- RegistroNegativoRequest.check_required_and_robo_fields (src/models.py
    lines 56-80): eleven always-required fields in source order, then the
    conditional robbery fields. -/
def checkRequiredAndRoboFields (d : RegistroNegativoData) : Except String Unit :=
  exSeq (requireField d.imei "El campo \x27imei\x27 es obligatorio.")
  (exSeq (requireField d.tipo_reporte "El campo \x27tipo_reporte\x27 es obligatorio.")
  (exSeq (requireField d.nombre_reporte "El campo \x27nombre_reporte\x27 es obligatorio.")
  (exSeq (requireField d.tipo_identificacion_reporte "El campo \x27tipo_identificacion_reporte\x27 es obligatorio.")
  (exSeq (requireField d.identificacion_reporte "El campo \x27identificacion_reporte\x27 es obligatorio.")
  (exSeq (requireField d.telefono_reporte "El campo \x27telefono_reporte\x27 es obligatorio.")
  (exSeq (requireField d.direccion_reporte "El campo \x27direccion_reporte\x27 es obligatorio.")
  (exSeq (requireField d.ciudad_reporte "El campo \x27ciudad_reporte\x27 es obligatorio.")
  (exSeq (requireField d.departamento_reporte "El campo \x27departamento_reporte\x27 es obligatorio.")
  (exSeq (requireField d.correo_electronico "El campo \x27correo_electronico\x27 es obligatorio.")
  (exSeq (requireField d.observaciones "El campo \x27observaciones\x27 es obligatorio.")
  (if d.tipo_reporte = some "1" then
    exSeq (requireField d.empleo_violencia "El campo \x27empleo_violencia\x27 es obligatorio cuando \x27tipo_reporte\x27 es \x271\x27 (Robo).")
      (if d.empleo_violencia = some "1" then
        exSeq (requireField d.utilizacion_armas "El campo \x27utilizacion_armas\x27 es obligatorio cuando \x27empleo_violencia\x27 es \x271\x27.")
          (requireField d.victima_menor_edad "El campo \x27victima_menor_edad\x27 es obligatorio cuando \x27empleo_violencia\x27 es \x271\x27.")
      else Except.ok ())
  else Except.ok ())))))))))))

/-- Raw dict handed to ModificacionPositivoRequest.check_all_fields
    (src/models.py lines 119-171). -/
structure ModificacionPositivoData where
  imei : Option String
  tipo_modificacion : Option String
  tipo_usuario_propietario : Option String
  tipo_identificacion_propietario : Option String
  identificacion_propietario : Option String
  nombre_razon_social_propietario : Option String
  direccion_propietario : Option String
  telefono_contacto_propietario : Option String
  tipo_usuario_autorizado : Option String
  imsi : Option String
  msisdn : Option String
  observaciones : Option String
  tipo_identificacion_propietario_anterior : Option String
  identificacion_propietario_anterior : Option String
  tipo_identificacion_autorizado : Option String
  identificacion_autorizado : Option String
  nombre_razon_social_autorizado : Option String
  direccion_autorizado : Option String
  telefono_contacto_autorizado : Option String

/-- ModificacionPositivoRequest.check_all_fields (src/models.py lines
    141-171).  Note the final guard compares the raw value against the
    empty string, not against the string 0 that the field documentation
    says means that no authorized user exists. -/
def checkAllFields (d : ModificacionPositivoData) : Except String Unit :=
  exSeq (requireField d.imei "El campo \x27imei\x27 es obligatorio.")
  (exSeq (requireField d.tipo_modificacion "El campo \x27tipo_modificacion\x27 es obligatorio.")
  (exSeq (requireField d.tipo_usuario_propietario "El campo \x27tipo_usuario_propietario\x27 es obligatorio.")
  (exSeq (requireField d.tipo_identificacion_propietario "El campo \x27tipo_identificacion_propietario\x27 es obligatorio.")
  (exSeq (requireField d.identificacion_propietario "El campo \x27identificacion_propietario\x27 es obligatorio.")
  (exSeq (requireField d.nombre_razon_social_propietario "El campo \x27nombre_razon_social_propietario\x27 es obligatorio.")
  (exSeq (requireField d.direccion_propietario "El campo \x27direccion_propietario\x27 es obligatorio.")
  (exSeq (requireField d.telefono_contacto_propietario "El campo \x27telefono_contacto_propietario\x27 es obligatorio.")
  (exSeq (requireField d.tipo_usuario_autorizado "El campo \x27tipo_usuario_autorizado\x27 es obligatorio.")
  (exSeq (if d.tipo_modificacion = some "2" || d.tipo_modificacion = some "3" then
      exSeq (requireField d.tipo_identificacion_propietario_anterior "El campo \x27tipo_identificacion_propietario_anterior\x27 es obligatorio cuando \x27tipo_modificacion\x27 es \x272\x27 o \x273\x27.")
        (requireField d.identificacion_propietario_anterior "El campo \x27identificacion_propietario_anterior\x27 es obligatorio cuando \x27tipo_modificacion\x27 es \x272\x27 o \x273\x27.")
    else Except.ok ())
  (if d.tipo_usuario_autorizado ≠ some "" then
    exSeq (requireField d.tipo_identificacion_autorizado "El campo \x27tipo_identificacion_autorizado\x27 es obligatorio cuando \x27tipo_usuario_autorizado\x27 no es \x270\x27.")
    (exSeq (requireField d.identificacion_autorizado "El campo \x27identificacion_autorizado\x27 es obligatorio cuando \x27tipo_usuario_autorizado\x27 no es \x270\x27.")
    (exSeq (requireField d.nombre_razon_social_autorizado "El campo \x27nombre_razon_social_autorizado\x27 es obligatorio cuando \x27tipo_usuario_autorizado\x27 no es \x270\x27.")
    (exSeq (requireField d.direccion_autorizado "El campo \x27direccion_autorizado\x27 es obligatorio cuando \x27tipo_usuario_autorizado\x27 no es \x270\x27.")
      (requireField d.telefono_contacto_autorizado "El campo \x27telefono_contacto_autorizado\x27 es obligatorio cuando \x27tipo_usuario_autorizado\x27 no es \x270\x27."))))
  else Except.ok ()))))))))))

/-- Concatenation of envelope fragments, in order (the builders in
    src/soap_client.py concatenate per-field f-strings). -/
def joinParts : List String → String
  | [] => ""
  | p :: ps => p ++ joinParts ps

/-- An element with escaped free-text content. -/
def tagEsc (tag s : String) : String :=
  "<" ++ tag ++ ">" ++ escapeXml s ++ "</" ++ tag ++ ">"

/-- An element whose content is inserted verbatim (no escaping). -/
def tagRaw (tag s : String) : String :=
  "<" ++ tag ++ ">" ++ s ++ "</" ++ tag ++ ">"

/-- Conditional escaped element for a required string field guarded by
    Python truthiness: omitted when the value is empty. -/
def tagEscIf (tag s : String) : String :=
  if s = "" then "" else tagEsc tag s

/-- Conditional escaped element for an optional field guarded by Python
    truthiness: omitted when the value is None or empty. -/
def tagEscOpt (tag : String) (o : Option String) : String :=
  match o with
  | some s => tagEscIf tag s
  | none => ""

/-- Conditional verbatim element for a required string field guarded by
    Python truthiness. -/
def tagRawIf (tag s : String) : String :=
  if s = "" then "" else tagRaw tag s

/-- Conditional verbatim element for an optional field guarded by Python
    truthiness. -/
def tagRawOpt (tag : String) (o : Option String) : String :=
  match o with
  | some s => tagRawIf tag s
  | none => ""

/-- Conditional verbatim element guarded by the `is not None` test used by
    the three conditional robbery flags: the empty string is still
    emitted. -/
def tagRawIfSome (tag : String) (o : Option String) : String :=
  match o with
  | some s => tagRaw tag s
  | none => ""

/-- RegistroPositivoRequest after validation (src/models.py lines 9-37):
    the always-required fields are present strings, imsi and msisdn stay
    optional. -/
structure RegistroPositivoRequest where
  imei : String
  tipo_usuario_propietario : String
  tipo_identificacion_propietario : String
  identificacion_propietario : String
  nombre_razon_social_propietario : String
  direccion_propietario : String
  telefono_contacto_propietario : String
  observaciones : String
  imsi : Option String
  msisdn : Option String

/-- Body built by SRTMAxisClient.registrar_positivo (src/soap_client.py
    lines 189-201), one fragment per source f-string. -/
def registrarPositivoBody (r : RegistroPositivoRequest) : String :=
  joinParts [
    "<SolicitudRegistroPositivo>",
    tagRaw "Imei" r.imei,
    tagEscOpt "Imsi" r.imsi,
    tagEscOpt "Msisdn" r.msisdn,
    tagEscIf "NombreRazonSocialPropietario" r.nombre_razon_social_propietario,
    tagEscIf "DireccionPropietario" r.direccion_propietario,
    tagRaw "TipoUsuarioPropietario" r.tipo_usuario_propietario,
    tagRaw "TipoIdentificacionPropietario" r.tipo_identificacion_propietario,
    tagEsc "IdentificacionPropietario" r.identificacion_propietario,
    tagEscIf "TelefonoContactoPropietario" r.telefono_contacto_propietario,
    "</SolicitudRegistroPositivo>"]

/-- RegistroNegativoRequest after validation (src/models.py lines 39-80). -/
structure RegistroNegativoRequest where
  imei : String
  tipo_reporte : String
  nombre_reporte : String
  tipo_identificacion_reporte : String
  identificacion_reporte : String
  telefono_reporte : String
  direccion_reporte : String
  ciudad_reporte : String
  departamento_reporte : String
  correo_electronico : String
  observaciones : String
  empleo_violencia : Option String
  utilizacion_armas : Option String
  victima_menor_edad : Option String

/-- Body built by SRTMAxisClient.registrar_negativo (src/soap_client.py
    lines 205-224); fechaNow stands for _get_current_datetime(). -/
def registrarNegativoBody (fechaNow : String) (r : RegistroNegativoRequest) : String :=
  joinParts [
    "<SolicitudRegistroNegativo>",
    tagRaw "Imei" r.imei,
    "<Tecnologia>01</Tecnologia>",
    tagRaw "FechaReporte" fechaNow,
    tagEscIf "NombreRazonSocialReporte" r.nombre_reporte,
    tagEscIf "TipoIdentificacionReporte" r.tipo_identificacion_reporte,
    tagEscIf "IdentificacionReporte" r.identificacion_reporte,
    tagEscIf "DireccionReporte" r.direccion_reporte,
    tagEscIf "TelefonoContactoReporte" r.telefono_reporte,
    tagEscIf "DepartamentoReporte" r.departamento_reporte,
    tagEscIf "CiudadReporte" r.ciudad_reporte,
    tagRaw "TipoReporte" r.tipo_reporte,
    tagRawIfSome "EmpleoViolencia" r.empleo_violencia,
    tagRawIfSome "UtilizacionArmas" r.utilizacion_armas,
    tagRawIfSome "VictimaMenorEdad" r.victima_menor_edad,
    tagEscIf "CorreoElectronico" r.correo_electronico,
    "</SolicitudRegistroNegativo>"]

/-- CancelacionNegativoRequest after validation (src/models.py lines 82-117). -/
structure CancelacionNegativoRequest where
  imei : String
  fecha_reporte : String
  observaciones : String

/-- Body built by SRTMAxisClient.cancelar_negativo (src/soap_client.py
    lines 239-244): both fields verbatim. -/
def cancelarNegativoBody (r : CancelacionNegativoRequest) : String :=
  joinParts [
    "<SolicitudCancelacionRegistroNegativo>",
    tagRaw "Imei" r.imei,
    tagRaw "FechaReporte" r.fecha_reporte,
    "</SolicitudCancelacionRegistroNegativo>"]

/-- ModificacionPositivoRequest after validation (src/models.py lines
    119-171). -/
structure ModificacionPositivoRequest where
  imei : String
  tipo_modificacion : String
  tipo_usuario_propietario : String
  tipo_identificacion_propietario : String
  identificacion_propietario : String
  nombre_razon_social_propietario : String
  direccion_propietario : String
  telefono_contacto_propietario : String
  tipo_usuario_autorizado : String
  imsi : Option String
  msisdn : Option String
  observaciones : Option String
  tipo_identificacion_propietario_anterior : Option String
  identificacion_propietario_anterior : Option String
  tipo_identificacion_autorizado : Option String
  identificacion_autorizado : Option String
  nombre_razon_social_autorizado : Option String
  direccion_autorizado : Option String
  telefono_contacto_autorizado : Option String

/-- Body built by SRTMAxisClient.modificar_positivo (src/soap_client.py
    lines 250-272).  TipoIdentificacionAutorizado is inserted verbatim in
    the source (line 264) although its neighbours are escaped. -/
def modificarPositivoBody (r : ModificacionPositivoRequest) : String :=
  joinParts [
    "<SolicitudModificacionRegistroPositivo>",
    tagRaw "Imei" r.imei,
    tagEscOpt "Imsi" r.imsi,
    tagEscOpt "Msisdn" r.msisdn,
    tagEsc "NombreRazonSocialPropietario" r.nombre_razon_social_propietario,
    tagEsc "DireccionPropietario" r.direccion_propietario,
    tagRaw "TipoUsuarioPropietario" r.tipo_usuario_propietario,
    tagRaw "TipoIdentificacionPropietario" r.tipo_identificacion_propietario,
    tagEsc "IdentificacionPropietario" r.identificacion_propietario,
    tagEsc "TelefonoContactoPropietario" r.telefono_contacto_propietario,
    tagEscOpt "NombreRazonSocialAutorizado" r.nombre_razon_social_autorizado,
    tagRawIf "TipoUsuarioAutorizado" r.tipo_usuario_autorizado,
    tagRawOpt "TipoIdentificacionAutorizado" r.tipo_identificacion_autorizado,
    tagEscOpt "IdentificacionAutorizado" r.identificacion_autorizado,
    tagEscOpt "TelefonoContactoAutorizado" r.telefono_contacto_autorizado,
    tagEscOpt "TipoIdentificacionPropietarioAnterior" r.tipo_identificacion_propietario_anterior,
    tagEscOpt "IdentificacionPropietarioAnterior" r.identificacion_propietario_anterior,
    tagRaw "TipoModificacion" r.tipo_modificacion,
    "</SolicitudModificacionRegistroPositivo>"]

/-- CancelacionPositivoRequest after validation (src/models.py lines
    173-189). -/
structure CancelacionPositivoRequest where
  imei : String
  tipo_usuario_propietario : String
  tipo_identificacion_propietario : String
  identificacion_propietario : String
  observaciones : String

/-- Body built by SRTMAxisClient.cancelar_positivo (src/soap_client.py
    lines 277-284). -/
def cancelarPositivoBody (r : CancelacionPositivoRequest) : String :=
  joinParts [
    "<SolicitudCancelacionRegistroPositivo>",
    tagRaw "Imei" r.imei,
    tagRaw "TipoUsuarioPropietario" r.tipo_usuario_propietario,
    tagRaw "TipoIdentificacionPropietario" r.tipo_identificacion_propietario,
    tagEsc "IdentificacionPropietario" r.identificacion_propietario,
    "</SolicitudCancelacionRegistroPositivo>"]

/-- ConsultaDBAClient._build_negativa_query_xml (src/consulta_client.py
    lines 34-43): the IMEI is interpolated with no escaping. -/
def buildNegativaQueryXml (imei : String) : String :=
  joinParts [
    "<![CDATA[<?xml version=\"1.0\" encoding=\"UTF-8\"?><ConsultaBDA xmlns:xsi=\"http://www.w3.org/2001/XMLSchema-instance\"><CuerpoConsulta><Consulta><TipoConsulta>1</TipoConsulta>",
    tagRaw "DatoConsulta" imei,
    "</Consulta></CuerpoConsulta></ConsultaBDA>]]>"]

/-- ConsultaDBAClient._build_positiva_query_xml (src/consulta_client.py
    lines 45-55): all three fields are interpolated with no escaping. -/
def buildPositivaQueryXml (imei tipo_id id_prop : String) : String :=
  joinParts [
    "<![CDATA[<?xml version=\"1.0\" encoding=\"UTF-8\"?><ConsultaBDA xmlns:xsi=\"http://www.w3.org/2001/XMLSchema-instance\"><CuerpoConsulta><ConsultaPositiva>",
    tagRaw "Imei" imei,
    tagRaw "TipoIdentificacionPropietario" tipo_id,
    tagRaw "IdentificacionPropietario" id_prop,
    "</ConsultaPositiva></CuerpoConsulta></ConsultaBDA>]]>"]

/-- MESSAGE_MAP of src/webhook.py lines 22-28: message-type code to
    response wrapper element name. -/
def MESSAGE_MAP : List (String × String) :=
  [("1002", "RespuestaRegistroPositivo"),
   ("2002", "RespuestaRegistroNegativo"),
   ("3002", "RespuestaCancelacionRegistroNegativo"),
   ("4002", "RespuestaModificacionRegistroPositivo"),
   ("5002", "RespuestaCancelacionRegistroPositivo")]

/-- First-match association lookup (Python dict membership plus
    indexing over the five fixed keys). -/
def mapLookup (k : String) : List (String × String) → Option String
  | [] => none
  | (a, b) :: r => if a = k then some b else mapLookup k r

/-- A Flask response of the webhook: optional XML body (none is the empty
    string body), HTTP status, optional explicit mimetype. -/
structure WebhookResponse where
  body : Option Xml
  status : Nat
  mimetype : Option String
deriving DecidableEq

/-- The fixed acknowledgment envelope synthesized at src/webhook.py lines
    75-89 (namespace prefixes dropped, as everywhere in this model): a
    SOAP Envelope whose single payload element receiveMessageReturn has
    text ack. -/
def ackXml : Xml :=
  Xml.elem "Envelope" none (XmlForest.ofList [
    Xml.elem "Body" none (XmlForest.ofList [
      Xml.elem "receiveMessageResponse" none (XmlForest.ofList [
        Xml.elem "receiveMessageReturn" (some "ack") (XmlForest.ofList [])])])])

/-- The xpath of src/webhook.py line 62: every TipoRespuesta child of any
    descendant named after the response wrapper. -/
def tipoRespuestaMatches (root : Xml) (wrapper : String) : List Xml :=
  List.flatten ((root.collectDesc wrapper).map
    (fun w => w.children.toList.filter (fun c => c.name = "TipoRespuesta")))

/-- handle_srtm_response (src/webhook.py lines 30-106).  The input is the
    request content type together with the result of etree.fromstring on
    the request body (none models an XMLSyntaxError, answered with an
    empty 404).  The text of the TipoRespuesta result element is read only
    for logging, so it does not appear in the result. -/
def handleSrtmResponse (contentType : String) (parsed : Option Xml) :
    WebhookResponse :=
  if contentType = "text/xml" ∨ contentType = "application/xml" then
    match parsed with
    | none => { body := none, status := 404, mimetype := none }
    | some root =>
      match (root.collectDesc "TipoMsg").head? with
      | none => { body := none, status := 200, mimetype := none }
      | some el =>
        match el.text with
        | none => { body := none, status := 200, mimetype := none }
        | some code =>
          match mapLookup code MESSAGE_MAP with
          | none => { body := none, status := 200, mimetype := none }
          | some wrapper =>
            match tipoRespuestaMatches root wrapper with
            | [] => { body := none, status := 404, mimetype := none }
            | _ :: _ => { body := some ackXml, status := 200, mimetype := some "text/xml" }
  else { body := none, status := 404, mimetype := none }

/-- The first string occurs contiguously inside the second. -/
def strIncl (needle hay : String) : Prop :=
  needle.data <:+: hay.data

/-- Executable prefix check on character lists. -/
def listIsPrefixB : List Char → List Char → Bool
  | [], _ => true
  | _ :: _, [] => false
  | a :: as, b :: bs => a == b && listIsPrefixB as bs

/-- Executable substring search on character lists. -/
def listContainsB (n : List Char) : List Char → Bool
  | [] => listIsPrefixB n []
  | c :: rest => listIsPrefixB n (c :: rest) || listContainsB n rest

/-- Executable substring check, for concrete counterexamples. -/
def strContainsB (hay needle : String) : Bool :=
  listContainsB needle.data hay.data

/-- Every fragment of a joined fragment list occurs in the result. -/
theorem strIncl_joinParts {p : String} {ps : List String} (h : p ∈ ps) :
    strIncl p (joinParts ps) := by
  induction ps with
  | nil => cases h
  | cons q qs ih =>
    rcases List.mem_cons.mp h with h | h
    · subst h
      exact ⟨[], (joinParts qs).data, by simp [joinParts, String.data_append]⟩
    · obtain ⟨s, t, hst⟩ := ih h
      refine ⟨q.data ++ s, t, ?_⟩
      simp only [joinParts, String.data_append, List.append_assoc]
      simp only [← List.append_assoc, ← String.data_append] at hst ⊢
      simp [String.data_append, List.append_assoc, hst]

/-- exSeq succeeds only when both steps succeed. -/
theorem exSeq_ok {a b : Except String Unit} (h : exSeq a b = Except.ok ()) :
    a = Except.ok () ∧ b = Except.ok () := by
  cases a with
  | error e => simp [exSeq] at h
  | ok u => exact ⟨by cases u; rfl, by simpa [exSeq] using h⟩

/-- requireField succeeds only on a present field. -/
theorem requireField_ok {v : Option String} {m : String}
    (h : requireField v m = Except.ok ()) : v ≠ none := by
  cases v with
  | none => simp [requireField] at h
  | some s => exact fun hc => Option.noConfusion hc

/-- C2 counterexample.  The claim says a Dialect-A 2xx outcome is success
    exactly when the return-element text is exactly the literal "ack" and
    failure with that text as error_code for any other text; but the code
    strips whitespace first (src/soap_client.py line 159), so the text
    " ack", which is not exactly "ack", still yields success with no
    error code. -/
theorem c2_counterexample :
    (soapSend "1001" "e" (SoapNet.got 200 (some " ack"))).success = true ∧
    (soapSend "1001" "e" (SoapNet.got 200 (some " ack"))).error_code = none ∧
    " ack" ≠ "ack" := by
  refine ⟨by decide, by decide, by decide⟩

/-- C2 (amended): for a Dialect-A HTTP 2xx response, the outcome is
    determined solely by the whitespace-stripped text of the known return
    element: stripped text equal to the token ack gives success with no
    error code, any other stripped text gives failure whose error_code is
    that stripped text. -/
theorem c2_dialectA_ack_contract (m e : String) (s : Nat) (r : String)
    (hlo : 200 ≤ s) (hhi : s < 300) :
    (pyStrip r = "ack" →
       (soapSend m e (SoapNet.got s (some r))).success = true ∧
       (soapSend m e (SoapNet.got s (some r))).error_code = none) ∧
    (pyStrip r ≠ "ack" →
       (soapSend m e (SoapNet.got s (some r))).success = false ∧
       (soapSend m e (SoapNet.got s (some r))).error_code = some (pyStrip r)) := by
  have hguard : (decide (400 ≤ s) && decide (s < 600)) = false := by
    have : ¬ 400 ≤ s := by omega
    simp [this]
  constructor
  · intro hack
    simp [soapSend, hguard, hack]
  · intro hnack
    simp [soapSend, hguard, hnack]

/-- C2 witness: a concrete rejected transaction. -/
theorem c2_witness :
    (soapSend "2001" "x" (SoapNet.got 200 (some "err1"))).success = false ∧
    (soapSend "2001" "x" (SoapNet.got 200 (some "err1"))).error_code = some "err1" := by
  have h := (c2_dialectA_ack_contract "2001" "x" 200 "err1" (by omega) (by omega)).2
    (by decide)
  exact ⟨h.1, h.2.trans (by decide)⟩

/-- C4 counterexample.  The claim says a transport error's failure outcome
    carries the HTTP status actually received; but for the Dialect-B query
    client a received 404 is overwritten with 500 by the except handler
    (src/consulta_client.py line 137). -/
theorem c4_counterexample :
    (consultaSend (ConsultaNet.got 404 ConsultaOuter.retMissing)
        (fun _ => none)).http_status = 500 ∧ (500 : Nat) ≠ 404 := by
  refine ⟨by decide, by decide⟩

/-- C4 (amended): every call resolves to an outcome value (both send
    functions are total); for Dialect A a transport error keeps the
    received HTTP status (500 when none was received), while for Dialect B
    any failure during processing, a non-2xx HTTP status included, resets
    the status to 500 (the generic failure). -/
theorem c4_transport_error_status :
    (∀ m e s b, 400 ≤ s → s < 600 →
       (soapSend m e (SoapNet.got s b)).http_status = s ∧
       (soapSend m e (SoapNet.got s b)).success = false) ∧
    (∀ m e, (soapSend m e SoapNet.netError).http_status = 500 ∧
       (soapSend m e SoapNet.netError).success = false) ∧
    (∀ s o p, 400 ≤ s → s < 600 →
       consultaSend (ConsultaNet.got s o) p = consultaGenericFail) ∧
    (∀ p, consultaSend ConsultaNet.netError p = consultaGenericFail) ∧
    consultaGenericFail.http_status = 500 ∧
    consultaGenericFail.success = false := by
  refine ⟨?_, ?_, ?_, ?_, rfl, rfl⟩
  · intro m e s b h4 h6
    have hguard : (decide (400 ≤ s) && decide (s < 600)) = true := by simp [h4, h6]
    constructor <;> simp [soapSend, hguard]
  · intro m e
    constructor <;> simp [soapSend]
  · intro s o p h4 h6
    have hguard : (decide (400 ≤ s) && decide (s < 600)) = true := by simp [h4, h6]
    simp [consultaSend, hguard]
  · intro p
    simp [consultaSend]

/-- C4 witness: concrete instances at status 404. -/
theorem c4_witness :
    (soapSend "1001" "x" (SoapNet.got 404 none)).http_status = 404 ∧
    consultaSend (ConsultaNet.got 404 ConsultaOuter.parseFail) (fun _ => none)
      = consultaGenericFail := by
  exact ⟨(c4_transport_error_status.1 "1001" "x" 404 none (by omega) (by omega)).1,
    c4_transport_error_status.2.2.1 404 ConsultaOuter.parseFail (fun _ => none)
      (by omega) (by omega)⟩

/-- C5: a Dialect-B 2xx response whose known return element is absent, has
    no text, or has empty text yields the distinct no-results failure with
    the received status kept, and the result does not depend on the nested
    parser at all (no nested parsing is attempted). -/
theorem c5_no_results_short_circuit (s : Nat) (o : ConsultaOuter)
    (p q : String → Option Xml) (hs : s < 400)
    (ho : o = ConsultaOuter.retMissing ∨ o = ConsultaOuter.retElem none ∨
          o = ConsultaOuter.retElem (some "")) :
    consultaSend (ConsultaNet.got s o) p = consultaNoResults s ∧
    consultaSend (ConsultaNet.got s o) p = consultaSend (ConsultaNet.got s o) q ∧
    (consultaNoResults s).success = false ∧
    (consultaNoResults s).message = some "La consulta no retornó resultados." := by
  have hguard : (decide (400 ≤ s) && decide (s < 600)) = false := by
    have : ¬ 400 ≤ s := by omega
    simp [this]
  rcases ho with rfl | rfl | rfl <;>
    exact ⟨by simp [consultaSend, hguard], by simp [consultaSend, hguard], rfl, rfl⟩

/-- C5 witness: concrete empty return element at status 200. -/
theorem c5_witness :
    consultaSend (ConsultaNet.got 200 (ConsultaOuter.retElem (some "")))
        (fun _ => some ackXml) = consultaNoResults 200 ∧
    consultaSend (ConsultaNet.got 200 (ConsultaOuter.retElem (some "")))
        (fun _ => some ackXml)
      = consultaSend (ConsultaNet.got 200 (ConsultaOuter.retElem (some "")))
          (fun _ => none) := by
  have h := c5_no_results_short_circuit 200 (ConsultaOuter.retElem (some ""))
    (fun _ => some ackXml) (fun _ => none) (by omega) (Or.inr (Or.inr rfl))
  exact ⟨h.1, h.2.1⟩

/-- The query-client outcome for a delivered response whose return element
    carries the given inner text (abbreviation used by the classifier
    theorems). -/
def consultaResult (s : Nat) (t : String) (p : String → Option Xml) :
    ConsultaDBAResponse :=
  consultaSend (ConsultaNet.got s (ConsultaOuter.retElem (some t))) p

/-- parseYmdHMS rejects the empty string. -/
theorem parseYmdHMS_empty : parseYmdHMS "" = none := by decide

/-- C3: a delivered Dialect-B response whose inner document has no error
    marker but a negative-record marker whose report-date parses yields
    success, and the reformatted date in the payload puts the DAY in the
    middle field and the MONTH last (the swapped ordering), the other
    payload fields being read off the record. -/
theorem c3_negative_record_date_swap (s : Nat) (t : String) (doc n : Xml)
    (p : String → Option Xml) (y mo dy h mi se : Nat)
    (hs : s < 400) (ht : t ≠ "") (hp : p t = some doc)
    (herr : doc.findDesc "RespuestaConsultaBDAError" = none)
    (hneg : doc.findDesc "RegistroBDANegativa" = some n)
    (hparse : parseYmdHMS (n.childText "FechaReporte" "") = some (y, mo, dy, h, mi, se)) :
    (consultaResult s t p).success = true ∧
    (consultaResult s t p).raw_response = some [[
      ("TipoRespuesta", doc.descText "TipoRespuesta" "N/A"),
      ("RespuestaConsultaBDANegativa", "Registro Encontrado"),
      ("Imei", n.childText "Imei" "N/A"),
      ("Tecnologia", n.childText "Tecnologia" "N/A"),
      ("FechaReporte", pad4 y ++ "-" ++ pad2 dy ++ "-" ++ pad2 mo ++ " "
        ++ pad2 h ++ ":" ++ pad2 mi ++ ":" ++ pad2 se)]] := by
  have hguard : (decide (400 ≤ s) && decide (s < 600)) = false := by
    have : ¬ 400 ≤ s := by omega
    simp [this]
  have hf : n.childText "FechaReporte" "" ≠ "" := by
    intro hemp
    rw [hemp, parseYmdHMS_empty] at hparse
    exact Option.noConfusion hparse
  constructor <;>
    simp [consultaResult, consultaSend, hguard, ht, hp, consultaClassify,
      herr, hneg, hf, hparse, fmtFechaSwap]

/-- Concrete negative-record node for the C3 witness. -/
def c3neg : Xml :=
  Xml.elem "RegistroBDANegativa" none (XmlForest.ofList [
    Xml.elem "Imei" (some "852055059447491") (XmlForest.ofList []),
    Xml.elem "Tecnologia" (some "01") (XmlForest.ofList []),
    Xml.elem "FechaReporte" (some "20241025143000") (XmlForest.ofList [])])

/-- Concrete inner document for the C3 witness. -/
def c3doc : Xml :=
  Xml.elem "RespuestaConsultaBDA" none (XmlForest.ofList [
    Xml.elem "TipoRespuesta" (some "2") (XmlForest.ofList []),
    c3neg])

/-- C3 witness: FechaReporte 20241025143000 reformats to exactly
    2024-25-10 14:30:00. -/
theorem c3_witness :
    (consultaResult 200 "inner" (fun _ => some c3doc)).success = true ∧
    (consultaResult 200 "inner" (fun _ => some c3doc)).raw_response = some [[
      ("TipoRespuesta", "2"),
      ("RespuestaConsultaBDANegativa", "Registro Encontrado"),
      ("Imei", "852055059447491"),
      ("Tecnologia", "01"),
      ("FechaReporte", "2024-25-10 14:30:00")]] := by
  have h := c3_negative_record_date_swap 200 "inner" c3doc c3neg
    (fun _ => some c3doc) 2024 10 25 14 30 0
    (by omega) (by decide) rfl (by decide) (by decide) (by decide)
  exact ⟨h.1, h.2.trans (by decide)⟩

/-- C1 counterexample.  The claim says a negative-list-record marker (with
    no error marker present) yields success; but when the record's
    FechaReporte text does not parse as a timestamp, strptime raises and
    the outer handler produces the generic 500 failure instead
    (src/consulta_client.py lines 106 and 134-137). -/
def c1doc : Xml :=
  Xml.elem "RespuestaConsultaBDA" none (XmlForest.ofList [
    Xml.elem "RegistroBDANegativa" none (XmlForest.ofList [
      Xml.elem "FechaReporte" (some "garbage") (XmlForest.ofList [])])])

/-- C1 counterexample theorem: the concrete response with a negative
    marker and unparsable report date is classified as failure with
    status 500, not success. -/
theorem c1_counterexample :
    (consultaResult 200 "inner" (fun _ => some c1doc)).success = false ∧
    (consultaResult 200 "inner" (fun _ => some c1doc)).http_status = 500 := by
  refine ⟨by decide, by decide⟩

/-- C1 (amended): for a delivered Dialect-B response with non-empty return
    text whose inner document parses, the classifier applies the fixed
    priority order: (1) an error marker wins over everything and yields
    failure with the extracted description and code; (2) otherwise a
    negative-record marker yields success when its report date is empty or
    parses, and the generic internal-error failure (status 500) when the
    date text is non-empty and unparsable; (3) otherwise a positive-record
    marker yields success with the placeholder payload; (4) otherwise
    failure with the unrecognized-shape message and the raw inner text
    kept in the payload. -/
theorem c1_classifier_priority (s : Nat) (t : String) (doc : Xml)
    (p : String → Option Xml) (hs : s < 400) (ht : t ≠ "") (hp : p t = some doc) :
    (∀ e, doc.findDesc "RespuestaConsultaBDAError" = some e →
       (consultaResult s t p).success = false ∧
       (consultaResult s t p).message
         = some ("Error de la BDA: " ++ e.childText "DescripcionError" "Error desconocido") ∧
       (consultaResult s t p).error_code = some (e.childText "CodigoError" "N/A")) ∧
    (doc.findDesc "RespuestaConsultaBDAError" = none →
     ∀ n, doc.findDesc "RegistroBDANegativa" = some n →
       (n.childText "FechaReporte" "" = "" → (consultaResult s t p).success = true) ∧
       (∀ dt, parseYmdHMS (n.childText "FechaReporte" "") = some dt →
          (consultaResult s t p).success = true) ∧
       (n.childText "FechaReporte" "" ≠ "" →
        parseYmdHMS (n.childText "FechaReporte" "") = none →
          consultaResult s t p = consultaGenericFail)) ∧
    (doc.findDesc "RespuestaConsultaBDAError" = none →
     doc.findDesc "RegistroBDANegativa" = none →
     ∀ r, doc.findDesc "RegistroBDAPositiva" = some r →
       (consultaResult s t p).success = true ∧
       (consultaResult s t p).raw_response
         = some [[("status", "Registro Positivo Encontrado"), ("data", "...")]]) ∧
    (doc.findDesc "RespuestaConsultaBDAError" = none →
     doc.findDesc "RegistroBDANegativa" = none →
     doc.findDesc "RegistroBDAPositiva" = none →
       (consultaResult s t p).success = false ∧
       (consultaResult s t p).message
         = some "La estructura de la respuesta no coincide con los patrones conocidos." ∧
       (consultaResult s t p).raw_response
         = some [[("error", "Estructura de respuesta desconocida"), ("response_body", t)]]) := by
  have hguard : (decide (400 ≤ s) && decide (s < 600)) = false := by
    have : ¬ 400 ≤ s := by omega
    simp [this]
  refine ⟨?_, ?_, ?_, ?_⟩
  · intro e herr
    refine ⟨?_, ?_, ?_⟩ <;>
      simp [consultaResult, consultaSend, hguard, ht, hp, consultaClassify, herr]
  · intro herr n hneg
    refine ⟨?_, ?_, ?_⟩
    · intro hfe
      simp [consultaResult, consultaSend, hguard, ht, hp, consultaClassify,
        herr, hneg, hfe]
    · intro dt hparse
      have hf : n.childText "FechaReporte" "" ≠ "" := by
        intro hemp
        rw [hemp, parseYmdHMS_empty] at hparse
        exact Option.noConfusion hparse
      simp [consultaResult, consultaSend, hguard, ht, hp, consultaClassify,
        herr, hneg, hf, hparse]
    · intro hfne hpnone
      simp [consultaResult, consultaSend, hguard, ht, hp, consultaClassify,
        herr, hneg, hfne, hpnone]
  · intro herr hnone r hpos
    refine ⟨?_, ?_⟩ <;>
      simp [consultaResult, consultaSend, hguard, ht, hp, consultaClassify,
        herr, hnone, hpos]
  · intro herr hnone hposn
    refine ⟨?_, ?_, ?_⟩ <;>
      simp [consultaResult, consultaSend, hguard, ht, hp, consultaClassify,
        herr, hnone, hposn]

/-- Concrete inner document with BOTH an error marker and a negative
    record, for the C1 witness: the error outcome wins. -/
def c1bothDoc : Xml :=
  Xml.elem "RespuestaConsultaBDA" none (XmlForest.ofList [
    Xml.elem "RespuestaConsultaBDAError" none (XmlForest.ofList [
      Xml.elem "CodigoError" (some "99") (XmlForest.ofList []),
      Xml.elem "DescripcionError" (some "X") (XmlForest.ofList [])]),
    c3neg])

/-- C1 witness: with both markers present the error outcome wins, with the
    extracted description and code. -/
theorem c1_witness :
    (consultaResult 200 "inner" (fun _ => some c1bothDoc)).success = false ∧
    (consultaResult 200 "inner" (fun _ => some c1bothDoc)).message
      = some "Error de la BDA: X" ∧
    (consultaResult 200 "inner" (fun _ => some c1bothDoc)).error_code = some "99" := by
  have h := (c1_classifier_priority 200 "inner" c1bothDoc
    (fun _ => some c1bothDoc) (by omega) (by decide) rfl).1
    (Xml.elem "RespuestaConsultaBDAError" none (XmlForest.ofList [
      Xml.elem "CodigoError" (some "99") (XmlForest.ofList []),
      Xml.elem "DescripcionError" (some "X") (XmlForest.ofList [])])) (by decide)
  exact ⟨h.1, h.2.1.trans (by decide), h.2.2.trans (by decide)⟩

/-- C6: for a register-negative payload with all eleven always-required
    fields supplied, the robbery conditional rules hold: tipo_reporte 1
    without empleo_violencia fails validation; tipo_reporte 1 with
    empleo_violencia 1 but a missing utilizacion_armas or
    victima_menor_edad fails validation; with all three conditional fields
    supplied, validation succeeds. -/
theorem c6_robbery_conditional_validation
    (i tr nr tir ir telr dr cr depr ce ob : String)
    (ev ua vm : Option String) :
    (tr = "1" → ev = none →
       ∃ m, checkRequiredAndRoboFields
         ⟨some i, some tr, some nr, some tir, some ir, some telr, some dr,
          some cr, some depr, some ce, some ob, ev, ua, vm⟩ = Except.error m) ∧
    (tr = "1" → ev = some "1" → (ua = none ∨ vm = none) →
       ∃ m, checkRequiredAndRoboFields
         ⟨some i, some tr, some nr, some tir, some ir, some telr, some dr,
          some cr, some depr, some ce, some ob, ev, ua, vm⟩ = Except.error m) ∧
    (ev ≠ none → ua ≠ none → vm ≠ none →
       checkRequiredAndRoboFields
         ⟨some i, some tr, some nr, some tir, some ir, some telr, some dr,
          some cr, some depr, some ce, some ob, ev, ua, vm⟩ = Except.ok ()) := by
  refine ⟨?_, ?_, ?_⟩
  · intro htr hev
    subst htr hev
    simp [checkRequiredAndRoboFields, exSeq, requireField]
  · intro htr hev hmiss
    subst htr hev
    rcases hmiss with hua | hvm
    · subst hua
      simp [checkRequiredAndRoboFields, exSeq, requireField]
    · subst hvm
      cases ua with
      | none => simp [checkRequiredAndRoboFields, exSeq, requireField]
      | some a => simp [checkRequiredAndRoboFields, exSeq, requireField]
  · intro hev hua hvm
    cases ev with
    | none => exact absurd rfl hev
    | some e0 =>
      cases ua with
      | none => exact absurd rfl hua
      | some a0 =>
        cases vm with
        | none => exact absurd rfl hvm
        | some v0 =>
          by_cases htr : tr = "1" <;>
            by_cases hev1 : e0 = "1" <;>
              simp [checkRequiredAndRoboFields, exSeq, requireField, htr, hev1]

/-- C6 witness: the three scenarios at concrete payloads. -/
theorem c6_witness :
    (∃ m, checkRequiredAndRoboFields
       ⟨some "852055059447491", some "1", some "F", some "1", some "22",
        some "355", some "C", some "Bog", some "BOG", some "a@b", some "o",
        none, none, none⟩ = Except.error m) ∧
    (∃ m, checkRequiredAndRoboFields
       ⟨some "852055059447491", some "1", some "F", some "1", some "22",
        some "355", some "C", some "Bog", some "BOG", some "a@b", some "o",
        some "1", none, some "0"⟩ = Except.error m) ∧
    checkRequiredAndRoboFields
       ⟨some "852055059447491", some "1", some "F", some "1", some "22",
        some "355", some "C", some "Bog", some "BOG", some "a@b", some "o",
        some "1", some "1", some "0"⟩ = Except.ok () := by
  have h := c6_robbery_conditional_validation "852055059447491" "1" "F" "1"
    "22" "355" "C" "Bog" "BOG" "a@b" "o"
  exact ⟨(h none none none).1 rfl rfl,
    (h (some "1") none (some "0")).2.1 rfl rfl (Or.inl rfl),
    (h (some "1") (some "1") (some "0")).2.2
      (by decide) (by decide) (by decide)⟩

/-- C10 (implicit behaviour of check_all_fields): validation passing with
    tipo_usuario_autorizado different from the empty string forces all
    five authorized-user fields to be present; in particular, with the
    value 0 (documented as meaning that no authorized user exists) and any
    of the five fields absent, validation raises an error. -/
theorem c10_authorized_fields_required :
    (∀ d : ModificacionPositivoData, checkAllFields d = Except.ok () →
       d.tipo_usuario_autorizado ≠ some "" →
       d.tipo_identificacion_autorizado ≠ none ∧
       d.identificacion_autorizado ≠ none ∧
       d.nombre_razon_social_autorizado ≠ none ∧
       d.direccion_autorizado ≠ none ∧
       d.telefono_contacto_autorizado ≠ none) ∧
    (∀ d : ModificacionPositivoData, d.tipo_usuario_autorizado = some "0" →
       (d.tipo_identificacion_autorizado = none ∨
        d.identificacion_autorizado = none ∨
        d.nombre_razon_social_autorizado = none ∨
        d.direccion_autorizado = none ∨
        d.telefono_contacto_autorizado = none) →
       checkAllFields d ≠ Except.ok ()) := by
  have main : ∀ d : ModificacionPositivoData, checkAllFields d = Except.ok () →
      d.tipo_usuario_autorizado ≠ some "" →
      d.tipo_identificacion_autorizado ≠ none ∧
      d.identificacion_autorizado ≠ none ∧
      d.nombre_razon_social_autorizado ≠ none ∧
      d.direccion_autorizado ≠ none ∧
      d.telefono_contacto_autorizado ≠ none := by
    intro d hok hne
    have h1 := exSeq_ok hok
    have h2 := exSeq_ok h1.2
    have h3 := exSeq_ok h2.2
    have h4 := exSeq_ok h3.2
    have h5 := exSeq_ok h4.2
    have h6 := exSeq_ok h5.2
    have h7 := exSeq_ok h6.2
    have h8 := exSeq_ok h7.2
    have h9 := exSeq_ok h8.2
    have h10 := exSeq_ok h9.2
    have hfin := h10.2
    rw [if_pos hne] at hfin
    have g1 := exSeq_ok hfin
    have g2 := exSeq_ok g1.2
    have g3 := exSeq_ok g2.2
    have g4 := exSeq_ok g3.2
    exact ⟨requireField_ok g1.1, requireField_ok g2.1, requireField_ok g3.1,
      requireField_ok g4.1, requireField_ok g4.2⟩
  refine ⟨main, ?_⟩
  intro d h0 hmiss hok
  have hne : d.tipo_usuario_autorizado ≠ some "" := by
    rw [h0]
    simp
  have hfive := main d hok hne
  rcases hmiss with hm | hm | hm | hm | hm
  · exact hfive.1 hm
  · exact hfive.2.1 hm
  · exact hfive.2.2.1 hm
  · exact hfive.2.2.2.1 hm
  · exact hfive.2.2.2.2 hm

/-- C10 witness: a concrete payload with tipo_usuario_autorizado 0 and a
    missing authorized-identification field fails validation. -/
theorem c10_witness :
    checkAllFields
      ⟨some "852055059447491", some "1", some "1", some "1", some "22",
       some "F", some "C", some "355", some "0", none, none, none, none,
       none, none, some "22", some "FA", some "DA", some "TA"⟩
      ≠ Except.ok () := by
  exact c10_authorized_fields_required.2
    ⟨some "852055059447491", some "1", some "1", some "1", some "22",
     some "F", some "C", some "355", some "0", none, none, none, none,
     none, none, some "22", some "FA", some "DA", some "TA"⟩
    rfl (Or.inl rfl)

/-- C8: a webhook POST whose content type is neither text/xml nor
    application/xml gets an empty 404 regardless of its body; a POST whose
    body parses but whose message-type code element is absent, text-less,
    or not one of the five known codes gets an empty 200. -/
theorem c8_webhook_gatekeeping :
    (∀ ct parsed, ct ≠ "text/xml" → ct ≠ "application/xml" →
       handleSrtmResponse ct parsed
         = { body := none, status := 404, mimetype := none }) ∧
    (∀ ct root, (ct = "text/xml" ∨ ct = "application/xml") →
       ((Xml.collectDesc root "TipoMsg").head? = none ∨
        (∃ el, (Xml.collectDesc root "TipoMsg").head? = some el ∧
           (el.text = none ∨
            ∃ c, el.text = some c ∧ mapLookup c MESSAGE_MAP = none))) →
       handleSrtmResponse ct (some root)
         = { body := none, status := 200, mimetype := none }) := by
  constructor
  · intro ct parsed h1 h2
    have : ¬ (ct = "text/xml" ∨ ct = "application/xml") := by
      intro h
      rcases h with h | h
      · exact h1 h
      · exact h2 h
    simp [handleSrtmResponse, this]
  · intro ct root hct hcase
    rcases hcase with hnone | ⟨el, hel, hmt⟩
    · simp [handleSrtmResponse, hct, hnone]
    · rcases hmt with htx | ⟨c, htx, hmap⟩
      · simp [handleSrtmResponse, hct, hel, htx]
      · simp [handleSrtmResponse, hct, hel, htx, hmap]

/-- C8 witness: a JSON post is answered with an empty 404; a parsed body
    with an unknown message-type code is answered with an empty 200. -/
theorem c8_witness :
    handleSrtmResponse "application/json" (some ackXml)
      = { body := none, status := 404, mimetype := none } ∧
    handleSrtmResponse "text/xml"
        (some (Xml.elem "MensajeBDA" none (XmlForest.ofList [
          Xml.elem "TipoMsg" (some "9999") (XmlForest.ofList [])])))
      = { body := none, status := 200, mimetype := none } := by
  refine ⟨c8_webhook_gatekeeping.1 "application/json" (some ackXml)
      (by decide) (by decide), ?_⟩
  exact c8_webhook_gatekeeping.2 "text/xml"
    (Xml.elem "MensajeBDA" none (XmlForest.ofList [
      Xml.elem "TipoMsg" (some "9999") (XmlForest.ofList [])]))
    (Or.inl rfl)
    (Or.inr ⟨Xml.elem "TipoMsg" (some "9999") (XmlForest.ofList []),
      by decide, Or.inr ⟨"9999", rfl, by decide⟩⟩)

/-- C9: a webhook POST with an accepted content type, a known message-type
    code, and the outcome marker present under the mapped wrapper is
    answered with the fixed SOAP envelope whose single payload element
    carries exactly the text ack, mimetype text/xml; and the response is
    the same for any two such posts, whatever the result-code texts are
    (the result code influences logging only, never the HTTP response). -/
theorem c9_webhook_ack_and_result_code_independence
    (ct : String) (hct : ct = "text/xml" ∨ ct = "application/xml")
    (r1 el1 : Xml) (cc1 w1 : String)
    (h1 : (Xml.collectDesc r1 "TipoMsg").head? = some el1)
    (h2 : el1.text = some cc1)
    (h3 : mapLookup cc1 MESSAGE_MAP = some w1)
    (h4 : tipoRespuestaMatches r1 w1 ≠ []) :
    handleSrtmResponse ct (some r1)
      = { body := some ackXml, status := 200, mimetype := some "text/xml" } ∧
    ackXml.descText "receiveMessageReturn" "" = "ack" ∧
    (∀ (r2 el2 : Xml) (cc2 w2 : String),
       (Xml.collectDesc r2 "TipoMsg").head? = some el2 →
       el2.text = some cc2 →
       mapLookup cc2 MESSAGE_MAP = some w2 →
       tipoRespuestaMatches r2 w2 ≠ [] →
       handleSrtmResponse ct (some r1) = handleSrtmResponse ct (some r2)) := by
  have hmain : ∀ (r el : Xml) (cc w : String),
      (Xml.collectDesc r "TipoMsg").head? = some el →
      el.text = some cc →
      mapLookup cc MESSAGE_MAP = some w →
      tipoRespuestaMatches r w ≠ [] →
      handleSrtmResponse ct (some r)
        = { body := some ackXml, status := 200, mimetype := some "text/xml" } := by
    intro r el cc w ha hb hc hd
    cases hm : tipoRespuestaMatches r w with
    | nil => exact absurd hm hd
    | cons a l => simp [handleSrtmResponse, hct, ha, hb, hc, hm]
  refine ⟨hmain r1 el1 cc1 w1 h1 h2 h3 h4, by decide, ?_⟩
  intro r2 el2 cc2 w2 g1 g2 g3 g4
  rw [hmain r1 el1 cc1 w1 h1 h2 h3 h4, hmain r2 el2 cc2 w2 g1 g2 g3 g4]

/-- Concrete accepted and rejected callback documents for the C9 witness. -/
def c9docAccepted : Xml :=
  Xml.elem "MensajeBDA" none (XmlForest.ofList [
    Xml.elem "CabeceraMensaje" none (XmlForest.ofList [
      Xml.elem "TipoMsg" (some "2002") (XmlForest.ofList [])]),
    Xml.elem "CuerpoMensaje" none (XmlForest.ofList [
      Xml.elem "RespuestaRegistroNegativo" none (XmlForest.ofList [
        Xml.elem "TipoRespuesta" (some "1") (XmlForest.ofList [])])])])

/-- Same document with the rejected result code. -/
def c9docRejected : Xml :=
  Xml.elem "MensajeBDA" none (XmlForest.ofList [
    Xml.elem "CabeceraMensaje" none (XmlForest.ofList [
      Xml.elem "TipoMsg" (some "2002") (XmlForest.ofList [])]),
    Xml.elem "CuerpoMensaje" none (XmlForest.ofList [
      Xml.elem "RespuestaRegistroNegativo" none (XmlForest.ofList [
        Xml.elem "TipoRespuesta" (some "2") (XmlForest.ofList [])])])])

/-- C9 witness: the concrete accepted callback is answered with the ack
    envelope, and the response is identical for the rejected variant. -/
theorem c9_witness :
    handleSrtmResponse "text/xml" (some c9docAccepted)
      = { body := some ackXml, status := 200, mimetype := some "text/xml" } ∧
    handleSrtmResponse "text/xml" (some c9docAccepted)
      = handleSrtmResponse "text/xml" (some c9docRejected) := by
  have h := c9_webhook_ack_and_result_code_independence "text/xml"
    (Or.inl rfl) c9docAccepted
    (Xml.elem "TipoMsg" (some "2002") (XmlForest.ofList []))
    "2002" "RespuestaRegistroNegativo"
    (by decide) rfl (by decide) (by decide)
  exact ⟨h.1, h.2.2 c9docRejected
    (Xml.elem "TipoMsg" (some "2002") (XmlForest.ofList []))
    "2002" "RespuestaRegistroNegativo"
    (by decide) rfl (by decide) (by decide)⟩

/-- C7 counterexample.  The claim says all free text inserted by the query
    builders is XML-entity-escaped; but _build_positiva_query_xml inserts
    the free-text owner identification verbatim: the characters < and &
    survive unescaped and no entity is produced. -/
theorem c7_counterexample :
    strContainsB (buildPositivaQueryXml "852055059447491" "1" "a<b&c")
      "<IdentificacionPropietario>a<b&c</IdentificacionPropietario>" = true ∧
    strContainsB (buildPositivaQueryXml "852055059447491" "1" "a<b&c")
      "a&lt;b&amp;c" = false := by
  refine ⟨by decide, by decide⟩

/-- C7 (amended): the five action-message builders XML-entity-escape every
    free-text field they insert (coded single-character enums, the IMEI
    and date fields are inserted verbatim), each escaped field appearing
    in the body as its element with escaped content; the query builders,
    by contrast, insert all of their fields, the free-text owner
    identification included, verbatim with no escaping. -/
theorem c7_escaping_amended :
    (∀ (rp : RegistroPositivoRequest) (vImsi vMsis : String),
       rp.imsi = some vImsi → vImsi ≠ "" →
       rp.msisdn = some vMsis → vMsis ≠ "" →
       rp.nombre_razon_social_propietario ≠ "" →
       rp.direccion_propietario ≠ "" →
       rp.telefono_contacto_propietario ≠ "" →
       strIncl (tagEsc "Imsi" vImsi) (registrarPositivoBody rp) ∧
       strIncl (tagEsc "Msisdn" vMsis) (registrarPositivoBody rp) ∧
       strIncl (tagEsc "NombreRazonSocialPropietario"
         rp.nombre_razon_social_propietario) (registrarPositivoBody rp) ∧
       strIncl (tagEsc "DireccionPropietario" rp.direccion_propietario)
         (registrarPositivoBody rp) ∧
       strIncl (tagEsc "IdentificacionPropietario" rp.identificacion_propietario)
         (registrarPositivoBody rp) ∧
       strIncl (tagEsc "TelefonoContactoPropietario"
         rp.telefono_contacto_propietario) (registrarPositivoBody rp)) ∧
    (∀ (fechaNow : String) (rn : RegistroNegativoRequest),
       rn.nombre_reporte ≠ "" → rn.tipo_identificacion_reporte ≠ "" →
       rn.identificacion_reporte ≠ "" → rn.direccion_reporte ≠ "" →
       rn.telefono_reporte ≠ "" → rn.departamento_reporte ≠ "" →
       rn.ciudad_reporte ≠ "" → rn.correo_electronico ≠ "" →
       strIncl (tagEsc "NombreRazonSocialReporte" rn.nombre_reporte)
         (registrarNegativoBody fechaNow rn) ∧
       strIncl (tagEsc "TipoIdentificacionReporte" rn.tipo_identificacion_reporte)
         (registrarNegativoBody fechaNow rn) ∧
       strIncl (tagEsc "IdentificacionReporte" rn.identificacion_reporte)
         (registrarNegativoBody fechaNow rn) ∧
       strIncl (tagEsc "DireccionReporte" rn.direccion_reporte)
         (registrarNegativoBody fechaNow rn) ∧
       strIncl (tagEsc "TelefonoContactoReporte" rn.telefono_reporte)
         (registrarNegativoBody fechaNow rn) ∧
       strIncl (tagEsc "DepartamentoReporte" rn.departamento_reporte)
         (registrarNegativoBody fechaNow rn) ∧
       strIncl (tagEsc "CiudadReporte" rn.ciudad_reporte)
         (registrarNegativoBody fechaNow rn) ∧
       strIncl (tagEsc "CorreoElectronico" rn.correo_electronico)
         (registrarNegativoBody fechaNow rn)) ∧
    (∀ (rm : ModificacionPositivoRequest)
       (vImsi vMsis vNomA vIdA vTelA vTIAnt vIAnt : String),
       rm.imsi = some vImsi → vImsi ≠ "" →
       rm.msisdn = some vMsis → vMsis ≠ "" →
       rm.nombre_razon_social_autorizado = some vNomA → vNomA ≠ "" →
       rm.identificacion_autorizado = some vIdA → vIdA ≠ "" →
       rm.telefono_contacto_autorizado = some vTelA → vTelA ≠ "" →
       rm.tipo_identificacion_propietario_anterior = some vTIAnt → vTIAnt ≠ "" →
       rm.identificacion_propietario_anterior = some vIAnt → vIAnt ≠ "" →
       strIncl (tagEsc "Imsi" vImsi) (modificarPositivoBody rm) ∧
       strIncl (tagEsc "Msisdn" vMsis) (modificarPositivoBody rm) ∧
       strIncl (tagEsc "NombreRazonSocialPropietario"
         rm.nombre_razon_social_propietario) (modificarPositivoBody rm) ∧
       strIncl (tagEsc "DireccionPropietario" rm.direccion_propietario)
         (modificarPositivoBody rm) ∧
       strIncl (tagEsc "IdentificacionPropietario" rm.identificacion_propietario)
         (modificarPositivoBody rm) ∧
       strIncl (tagEsc "TelefonoContactoPropietario"
         rm.telefono_contacto_propietario) (modificarPositivoBody rm) ∧
       strIncl (tagEsc "NombreRazonSocialAutorizado" vNomA) (modificarPositivoBody rm) ∧
       strIncl (tagEsc "IdentificacionAutorizado" vIdA) (modificarPositivoBody rm) ∧
       strIncl (tagEsc "TelefonoContactoAutorizado" vTelA) (modificarPositivoBody rm) ∧
       strIncl (tagEsc "TipoIdentificacionPropietarioAnterior" vTIAnt)
         (modificarPositivoBody rm) ∧
       strIncl (tagEsc "IdentificacionPropietarioAnterior" vIAnt)
         (modificarPositivoBody rm)) ∧
    (∀ rc : CancelacionPositivoRequest,
       strIncl (tagEsc "IdentificacionPropietario" rc.identificacion_propietario)
         (cancelarPositivoBody rc)) ∧
    (∀ imei, strIncl (tagRaw "DatoConsulta" imei) (buildNegativaQueryXml imei)) ∧
    (∀ imei tid idp,
       strIncl (tagRaw "Imei" imei) (buildPositivaQueryXml imei tid idp) ∧
       strIncl (tagRaw "TipoIdentificacionPropietario" tid)
         (buildPositivaQueryXml imei tid idp) ∧
       strIncl (tagRaw "IdentificacionPropietario" idp)
         (buildPositivaQueryXml imei tid idp)) := by
  refine ⟨?_, ?_, ?_, ?_, ?_, ?_⟩
  · intro rp vImsi vMsis h1 h2 h3 h4 h5 h6 h7
    refine ⟨?_, ?_, ?_, ?_, ?_, ?_⟩ <;>
      exact strIncl_joinParts
        (by simp [registrarPositivoBody, tagEscOpt, tagEscIf, h1, h2, h3, h4, h5, h6, h7])
  · intro fechaNow rn h1 h2 h3 h4 h5 h6 h7 h8
    refine ⟨?_, ?_, ?_, ?_, ?_, ?_, ?_, ?_⟩ <;>
      exact strIncl_joinParts
        (by simp [registrarNegativoBody, tagEscIf, h1, h2, h3, h4, h5, h6, h7, h8])
  · intro rm vImsi vMsis vNomA vIdA vTelA vTIAnt vIAnt
      h1 h2 h3 h4 h5 h6 h7 h8 h9 h10 h11 h12 h13 h14
    refine ⟨?_, ?_, ?_, ?_, ?_, ?_, ?_, ?_, ?_, ?_, ?_⟩ <;>
      exact strIncl_joinParts
        (by simp [modificarPositivoBody, tagEscOpt, tagEscIf,
          h1, h2, h3, h4, h5, h6, h7, h8, h9, h10, h11, h12, h13, h14])
  · intro rc
    exact strIncl_joinParts (by simp [cancelarPositivoBody])
  · intro imei
    exact strIncl_joinParts (by simp [buildNegativaQueryXml])
  · intro imei tid idp
    refine ⟨?_, ?_, ?_⟩ <;>
      exact strIncl_joinParts (by simp [buildPositivaQueryXml])

/-- Concrete validated register-positive request for the C7 witness. -/
def c7rp : RegistroPositivoRequest :=
  { imei := "852055059447491"
  , tipo_usuario_propietario := "1"
  , tipo_identificacion_propietario := "1"
  , identificacion_propietario := "22222222222"
  , nombre_razon_social_propietario := "Fulano de Tal"
  , direccion_propietario := "kra 1"
  , telefono_contacto_propietario := "3580666666"
  , observaciones := "obs"
  , imsi := some "732101000000001"
  , msisdn := some "3588777777" }

/-- C7 witness: concrete escaped insertions in the action body and a
    concrete verbatim insertion in the query body. -/
theorem c7_witness :
    strIncl (tagEsc "Imsi" "732101000000001") (registrarPositivoBody c7rp) ∧
    strIncl (tagEsc "IdentificacionPropietario" "22222222222")
      (registrarPositivoBody c7rp) ∧
    strIncl (tagRaw "IdentificacionPropietario" "a<b")
      (buildPositivaQueryXml "852055059447491" "1" "a<b") := by
  have h := c7_escaping_amended.1 c7rp "732101000000001" "3588777777"
    rfl (by decide) rfl (by decide) (by decide) (by decide) (by decide)
  exact ⟨h.1, h.2.2.2.2.1,
    (c7_escaping_amended.2.2.2.2.2 "852055059447491" "1" "a<b").2.2⟩
